import Mathlib

/-!
Verification of the change-detection and fanout alerting engine of the
em-slack-french-toast repository, shallowly embedded in Lean 4.

The embedding follows `src/french_toast/alert.py` (class `FrenchToastAlerter`),
`src/french_toast/storage.py` (models `Teams` and `Status`) and
`src/french_toast/auth.py` (`store_data`, `send_initial_alert`).

Modelling conventions:
* `datetime` timestamps are natural numbers; nullable DB columns are `Option`.
* Each call to `report_event` is recorded as one diagnostic event name in an
  event list returned alongside the result.
* The upstream fetch is an input: either a transport failure (the
  `requests.exceptions.RequestException` caught in `_get_raw_xml`, whose
  `str(err)` is reported as an event) or a successfully parsed XML document,
  given as its list of child elements (tag and optional text), which is what
  the `for elem in self._xml` loop in `_get_status_from_xml` iterates over.
* Python's `str.upper()` on the ASCII status codes is `upper` below.
-/

namespace FrenchToast

/-- Python `str.upper()` restricted to what the code feeds it (ASCII status
codes): upper-case every character. -/
def upper (s : String) : String := String.mk (s.data.map Char.toUpper)

/-- Display metadata of one alert level. Modelled from the spec:
`ALERT_LEVELS` is imported in `alert.py` from the package root but is absent
from the sources here; §3 of the spec describes it as a fixed mapping from
status code to display data, and `EmSlackFrenchToast.LEVELS` in
`src/french_toast/__init__.py` carries the same five codes with a color and an
image URL. -/
structure Level where
  color : String
  image : String
deriving Repr, DecidableEq

/-- Modelled from the spec: the fixed five-tier level set (spec §3, §8;
keys and colors as in `EmSlackFrenchToast.LEVELS` in
`src/french_toast/__init__.py`). -/
def ALERT_LEVELS : List (String × Level) :=
  [("LOW",
    { color := "97FF9B",
      image := "http://www.universalhub.com/images/2007/frenchtoastgreen.jpg" }),
   ("GUARDED",
    { color := "9799FF",
      image := "http://www.universalhub.com/images/2007/frenchtoastblue.jpg" }),
   ("ELEVATED",
    { color := "FFFF40",
      image := "http://www.universalhub.com/images/2007/frenchtoastyellow.jpg" }),
   ("HIGH",
    { color := "FF821D",
      image := "http://www.universalhub.com/images/2007/frenchtoastorange.jpg" }),
   ("SEVERE",
    { color := "F85D58",
      image := "http://www.universalhub.com/images/2007/frenchtoastred.jpg" })]

/-- Membership lookup `ALERT_LEVELS[status]` guarded by
`status not in ALERT_LEVELS.keys()` in `_get_level_from_status`. -/
def lookupLevel (code : String) : Option Level :=
  (ALERT_LEVELS.find? (fun p => p.fst == code)).map Prod.snd

/-- The singleton `Status` row of `storage.py` (`status`, `updated`); the
constant `id` column is implicit in there being a single value. -/
structure StatusRow where
  status : String
  updated : Nat
deriving Repr, DecidableEq

/-- One parsed XML child element: tag and optional text, as consumed by the
`for elem in self._xml` loop of `_get_status_from_xml`. -/
structure XmlElem where
  tag : String
  text : Option String
deriving Repr, DecidableEq

/-- Outcome of `_get_raw_xml` plus XML parsing: a caught transport error
(reported via `report_event(str(err), {})`) or the parsed document. -/
inductive Fetch where
  | failure (err : String)
  | document (elems : List XmlElem)
deriving Repr, DecidableEq

/-- The loop of `_get_status_from_xml`: take the text of the first element
whose tag is `status` (a missing element and a `None` text both yield
`none`). -/
def findStatusText (elems : List XmlElem) : Option String :=
  (elems.find? (fun e => e.tag == "status")).bind XmlElem.text

/-- FrenchToastAlerter._get_status composed with `_get_raw_xml` and
`_get_status_from_xml`: on a transport failure the error text is reported and
`None` returned; on a document without a usable `status` element,
`invalid_xml_status` is reported and `None` returned; otherwise the text is
returned upper-cased. Returns the status together with the diagnostic events
emitted. -/
def get_status : Fetch → Option String × List String
  | .failure err => (none, [err])
  | .document elems =>
      match findStatusText elems with
      | none => (none, ["invalid_xml_status"])
      | some txt => (some (upper txt), [])

/-- FrenchToastAlerter._get_level_from_status: `unknown_status` is reported
and `None` returned when the (possibly `None`) status is not a key of
`ALERT_LEVELS`. -/
def get_level_from_status : Option String → Option Level × List String
  | none => (none, ["unknown_status"])
  | some code =>
      match lookupLevel code with
      | none => (none, ["unknown_status"])
      | some lvl => (some lvl, [])

/-- Result of one `check_status` call: the returned boolean, the (possibly
updated) singleton Status row, and the diagnostic events emitted. -/
structure CheckResult where
  changed : Bool
  row : StatusRow
  events : List String
deriving Repr, DecidableEq

/-- FrenchToastAlerter.check_status: fetch and resolve the new status; if the
status or its level is bad, report `bad_status_change` and return `False`
without touching the row; otherwise compare to the stored status and, on a
difference, store the new status with the current time (`_store_new_status`
writes both fields of the row id=1 and commits once). -/
def check_status (row : StatusRow) (fetch : Fetch) (now : Nat) : CheckResult :=
  let new_status := (get_status fetch).fst
  let ev1 := (get_status fetch).snd
  let new_level := (get_level_from_status new_status).fst
  let ev2 := (get_level_from_status new_status).snd
  match new_status, new_level with
  | some code, some _ =>
      let status_changed := code != row.status
      { changed := status_changed,
        row := if status_changed then { status := code, updated := now } else row,
        events := ev1 ++ ev2 }
  | _, _ =>
      { changed := false, row := row, events := ev1 ++ ev2 ++ ["bad_status_change"] }

/-- One row of the `Teams` table of `storage.py`: the nullable plaintext `url`
column (unique), the `encrypted_url` blob, `added`, the nullable
`last_alerted` timestamp and the `inactive` flag (default false). The
autoincrement `id` column is not needed by any claim and is omitted. -/
structure Team where
  team_id : String
  channel_id : String
  url : Option String
  encrypted_url : Option String
  added : Nat
  last_alerted : Option Nat
  inactive : Bool
deriving Repr, DecidableEq

/-- Teams.set_url: encrypt the given url with the class cipher and assign the
result to the `encrypted_url` field. The Fernet cipher is an opaque parameter
`cipher`. -/
def set_url (cipher : String → String) (t : Team) (u : String) : Team :=
  { t with encrypted_url := some (cipher u) }

/-- Teams.__init__: set `team_id` and `channel_id`, then `set_url`; every
other column keeps its database default (`url` NULL, `last_alerted` NULL,
`inactive` false, `added` the insertion time `nowAdded`). -/
def newTeam (cipher : String → String) (nowAdded : Nat)
    (team_id channel_id u : String) : Team :=
  set_url cipher
    { team_id := team_id, channel_id := channel_id, url := none,
      encrypted_url := none, added := nowAdded, last_alerted := none,
      inactive := false } u

/-- FrenchToastAlerter.send_alert: one unconditional POST to `team.url` (the
observable is the list of POST target urls; the JSON body does not affect any
claim). There is no force parameter and no skip check in the source. -/
def send_alert (t : Team) : List (Option String) := [t.url]

/-- The teams FrenchToastAlerter.send_alerts POSTs to: the query filters
`Teams.inactive == False`, and the loop posts when
`force or team.last_alerted != self.timestamp`. -/
def send_alerts (teams : List Team) (ts : Nat) (force : Bool) : List Team :=
  (teams.filter (fun t => !t.inactive)).filter
    (fun t => force || t.last_alerted != some ts)

/-- FrenchToastAlerter._response_hook for the response of one team's POST,
returning the updated row and the events emitted. `ts` is the alerter's
current status timestamp, `code` the HTTP status. A missing request url bails
with `missing_team_url`. The hook locates the row by the response url; since
the `url` column is unique, the located row is the posted team itself, so the
lookup is represented by acting on `t` directly. On 404 the code sets
`inactive = True` and then falls through to the final
`team.last_alerted = self.timestamp` assignment and commit; on any other
non-200 it returns before that assignment; on 200 it assigns and commits. -/
def response_hook (ts : Nat) (code : Nat) (t : Team) : Team × List String :=
  match t.url with
  | none => (t, ["missing_team_url"])
  | some _ =>
      if code == 404 then
        ({ t with inactive := true, last_alerted := some ts }, ["team_marked_inactive"])
      else if code != 200 then
        (t, ["bad_slack_request"])
      else
        ({ t with last_alerted := some ts }, [])

/-- Effect of one send_alerts pass on a single subscriber row: if the row is
selected for a POST, its state after the response hook for the HTTP status
`resp t`; otherwise unchanged. -/
def deliverStep (ts : Nat) (force : Bool) (resp : Team → Nat) (t : Team) : Team :=
  if !t.inactive && (force || t.last_alerted != some ts) then
    (response_hook ts (resp t) t).fst
  else t

/-- Effect of one send_alerts pass on the whole Teams table. -/
def deliver_round (ts : Nat) (force : Bool) (resp : Team → Nat)
    (teams : List Team) : List Team :=
  teams.map (deliverStep ts force resp)

/-- FrenchToastAlerter.alert: run check_status once and, only if it returned
`True`, run one (non-forced) send_alerts pass; the alerter's timestamp at
that point is the refreshed `updated` field of the stored row. Returns the
teams posted to. -/
def alert_posts (row : StatusRow) (fetch : Fetch) (now : Nat)
    (teams : List Team) : List Team :=
  let r := check_status row fetch now
  if r.changed then send_alerts teams r.row.updated false else []

/-- The validated registration data handed to `store_data` in `auth.py`. -/
structure RegInfo where
  team_id : String
  channel_id : String
  url : String
deriving Repr, DecidableEq

/-- The `Teams.query.filter_by(team_id=..., channel_id=...).first()` lookup
in `store_data`. -/
def findExisting (teams : List Team) (info : RegInfo) : Option Team :=
  teams.find? (fun t => t.team_id == info.team_id && t.channel_id == info.channel_id)

/-- Commit of an UPDATE of the row found by `findExisting`: replace the first
matching row. -/
def replaceFirst (p : Team → Bool) (t' : Team) : List Team → List Team
  | [] => []
  | t :: ts => if p t then t' :: ts else t :: replaceFirst p t' ts

/-- store_data of `auth.py`: if no row matches `team_id`+`channel_id`, create
a new `Teams` row (via `Teams.__init__`, so through `set_url`) and return it;
otherwise assign `team.url = info['url']` (the plaintext column), commit, and
return the updated row. Nothing else on the existing row is touched. -/
def store_data (cipher : String → String) (nowAdded : Nat)
    (teams : List Team) (info : RegInfo) : List Team × Team :=
  match findExisting teams info with
  | none =>
      let nt := newTeam cipher nowAdded info.team_id info.channel_id info.url
      (teams ++ [nt], nt)
  | some t =>
      let t' := { t with url := some info.url }
      (replaceFirst
        (fun x => x.team_id == info.team_id && x.channel_id == info.channel_id)
        t' teams, t')

end FrenchToast


namespace FrenchToast

/-- Fixed concrete rows and inputs used by the concrete instantiations. -/
def rowLow : StatusRow := { status := "LOW", updated := 0 }

/-- Document whose status element reads `high`. -/
def elemsHigh : List XmlElem := [{ tag := "status", text := some ("high") }]

/-- Document whose status element reads `low`. -/
def elemsLow : List XmlElem := [{ tag := "status", text := some ("low") }]

/-- Document whose status element reads `BLIZZARD`, a code outside the level
set. -/
def elemsBlizzard : List XmlElem := [{ tag := "status", text := some ("BLIZZARD") }]

/-- An active subscriber that has never been alerted. -/
def teamActive : Team :=
  { team_id := "T1", channel_id := "C1", url := some ("https://hooks/a"),
    encrypted_url := none, added := 0, last_alerted := none, inactive := false }

/-- A deactivated subscriber. -/
def teamInactive : Team :=
  { team_id := "T2", channel_id := "C2", url := some ("https://hooks/b"),
    encrypted_url := none, added := 0, last_alerted := none, inactive := true }

/-- A deactivated subscriber already alerted for timestamp 7. -/
def teamSkip : Team :=
  { team_id := "T3", channel_id := "C3", url := some ("https://hooks/c"),
    encrypted_url := none, added := 0, last_alerted := some 7, inactive := true }

/-- An inactive registered row for team T9, channel C9. -/
def teamReg : Team :=
  { team_id := "T9", channel_id := "C9", url := some ("https://hooks/old"),
    encrypted_url := some ("oldcipher"), added := 0, last_alerted := none,
    inactive := true }

/-- A re-registration of team T9, channel C9 with a new delivery url. -/
def regNew : RegInfo :=
  { team_id := "T9", channel_id := "C9", url := "https://hooks/new" }

/-- A stand-in for the Fernet cipher in concrete instantiations. -/
def cipherDemo : String → String := fun s => String.append ("enc:") s

/-- Membership in one `send_alerts` pass, unfolded: the team is in the table,
its `inactive` flag is false, and it is selected by `force` or by a stale
`last_alerted`. -/
theorem mem_send_alerts {t : Team} {l : List Team} {ts : Nat} {force : Bool} :
    t ∈ send_alerts l ts force ↔
      t ∈ l ∧ t.inactive = false ∧ (force = true ∨ t.last_alerted ≠ some ts) := by
  simp only [send_alerts, List.mem_filter, Bool.not_eq_true', bne_iff_ne,
    Bool.or_eq_true, and_assoc]

end FrenchToast

namespace FrenchToast

/-- Claim C1: for every fetched status code that resolves in the level set
and differs from the stored code, `check_status` returns changed (`True`) and
writes the new code together with the fresh timestamp into the singleton
Status row, and the single subsequent `send_alerts` pass run by `alert`
attempts delivery to exactly the subscribers with `inactive = false` (the
fresh timestamp differs from every stored `last_alerted`). -/
theorem check_status_change_triggers_full_fanout
    (row : StatusRow) (elems : List XmlElem) (txt : String) (now : Nat)
    (teams : List Team)
    (hfind : findStatusText elems = some txt)
    (hlvl : (lookupLevel (upper txt)).isSome = true)
    (hdiff : upper txt ≠ row.status)
    (hfresh : ∀ t ∈ teams, t.last_alerted ≠ some now) :
    (check_status row (.document elems) now).changed = true ∧
    (check_status row (.document elems) now).row =
      { status := upper txt, updated := now } ∧
    alert_posts row (.document elems) now teams =
      teams.filter (fun t => !t.inactive) := by
  obtain ⟨lvl, hlvl'⟩ := Option.isSome_iff_exists.mp hlvl
  have hcs : check_status row (.document elems) now =
      { changed := true, row := { status := upper txt, updated := now },
        events := [] } := by
    simp [check_status, get_status, hfind, get_level_from_status, hlvl',
      bne_iff_ne, hdiff]
  have hfil : (teams.filter (fun t => !t.inactive)).filter
      (fun t => false || t.last_alerted != some now) =
      teams.filter (fun t => !t.inactive) := by
    apply List.filter_eq_self.mpr
    intro a ha
    have hmem := (List.mem_filter.mp ha).1
    simp [bne_iff_ne, hfresh a hmem]
  refine ⟨by rw [hcs], by rw [hcs], ?_⟩
  have halert : alert_posts row (.document elems) now teams =
      send_alerts teams now false := by
    simp [alert_posts, hcs]
  rw [halert]
  simp only [send_alerts]
  exact hfil

/-- Concrete instantiation of the C1 theorem: stored LOW, upstream `high`,
one active and one inactive subscriber. -/
theorem check_status_change_triggers_full_fanout_witness :
    (check_status rowLow (.document elemsHigh) 7).changed = true ∧
    (check_status rowLow (.document elemsHigh) 7).row =
      { status := "HIGH", updated := 7 } ∧
    alert_posts rowLow (.document elemsHigh) 7 [teamActive, teamInactive] =
      [teamActive, teamInactive].filter (fun t => !t.inactive) :=
  check_status_change_triggers_full_fanout rowLow elemsHigh ("high") 7
    [teamActive, teamInactive] (by decide) (by decide) (by decide) (by decide)

/-- Claim C2 counterexample: feeding `check_status` a fetched `BLIZZARD`
(outside the level set) returns no change and leaves the stored row
untouched, but surfaces two diagnostic events (`unknown_status` from
`_get_level_from_status` followed by `bad_status_change` from
`check_status`), not exactly one. -/
theorem check_status_blizzard_two_events :
    check_status rowLow (.document elemsBlizzard) 1 =
      { changed := false, row := rowLow,
        events := ["unknown_status", "bad_status_change"] } ∧
    (check_status rowLow (.document elemsBlizzard) 1).events.length ≠ 1 := by
  decide

/-- Claim C2 (amended): on a fetch failure or a fetched code outside the
level set, `check_status` returns no change and leaves the stored status and
its `updated` timestamp unmodified, and surfaces more than one diagnostic
event (three on a fetch failure, two on an unknown code). -/
theorem check_status_bad_data_no_change
    (row : StatusRow) (fetch : Fetch) (now : Nat)
    (h : (get_status fetch).fst = none ∨
         ∃ code, (get_status fetch).fst = some code ∧ lookupLevel code = none) :
    (check_status row fetch now).changed = false ∧
    (check_status row fetch now).row = row ∧
    2 ≤ (check_status row fetch now).events.length := by
  obtain h1 | ⟨code, hc, hl⟩ := h
  · have hcs : check_status row fetch now =
        { changed := false, row := row,
          events := (get_status fetch).snd ++ ["unknown_status"]
            ++ ["bad_status_change"] } := by
      simp [check_status, h1, get_level_from_status]
    rw [hcs]
    refine ⟨rfl, rfl, ?_⟩
    simp [List.length_append]
  · have hcs : check_status row fetch now =
        { changed := false, row := row,
          events := (get_status fetch).snd ++ ["unknown_status"]
            ++ ["bad_status_change"] } := by
      simp [check_status, hc, get_level_from_status, hl]
    rw [hcs]
    refine ⟨rfl, rfl, ?_⟩
    simp [List.length_append]

/-- Concrete instantiation of the C2 theorem: a transport failure leaves the
row untouched and reports events. -/
theorem check_status_bad_data_no_change_witness :
    (check_status rowLow (.failure ("boom")) 4).changed = false ∧
    (check_status rowLow (.failure ("boom")) 4).row = rowLow ∧
    2 ≤ (check_status rowLow (.failure ("boom")) 4).events.length :=
  check_status_bad_data_no_change rowLow (.failure ("boom")) 4 (Or.inl rfl)

/-- Claim C7: a fetched code equal up to case to the stored code (the fetched
code is upper-cased before the equality test, and the stored code is itself
upper-case) makes `check_status` return no change and leave the Status row,
its `updated` timestamp included, unmodified. -/
theorem check_status_case_insensitive_no_change
    (row : StatusRow) (elems : List XmlElem) (txt : String) (now : Nat)
    (hfind : findStatusText elems = some txt)
    (hupper : upper row.status = row.status)
    (heq : upper txt = upper row.status) :
    (check_status row (.document elems) now).changed = false ∧
    (check_status row (.document elems) now).row = row := by
  have heq' : upper txt = row.status := heq.trans hupper
  rcases h : lookupLevel (upper txt) with _ | lvl
  · constructor <;>
      simp [check_status, get_status, hfind, get_level_from_status, h]
  · rw [heq'] at h
    constructor <;>
      simp [check_status, get_status, hfind, get_level_from_status, heq', h,
        bne_self_eq_false]

/-- Concrete instantiation of the C7 theorem: stored LOW, upstream `low`. -/
theorem check_status_case_insensitive_no_change_witness :
    (check_status rowLow (.document elemsLow) 9).changed = false ∧
    (check_status rowLow (.document elemsLow) 9).row = rowLow :=
  check_status_case_insensitive_no_change rowLow elemsLow ("low") 9
    (by decide) (by decide) (by decide)

end FrenchToast

namespace FrenchToast

/-- Claim C3 counterexample: for a delivery response of HTTP 404 the response
hook sets `inactive`, but — contrary to the claim — it also updates
`last_alerted` to the status timestamp: the 404 branch falls through to the
final `team.last_alerted = self.timestamp` assignment before the commit. -/
theorem response_hook_404_updates_last_alerted :
    teamActive.last_alerted = none ∧
    (response_hook 5 404 teamActive).fst.inactive = true ∧
    (response_hook 5 404 teamActive).fst.last_alerted = some 5 := by
  decide

/-- Claim C3 (amended): for a delivery response of HTTP 404 the response hook
sets `inactive = true` and also sets `last_alerted` to the status timestamp,
and the subscriber is thereafter excluded from every `send_alerts` pass
(forced or not, for any timestamp); re-registration does not change the
`inactive` flag, so no reactivation occurs. -/
theorem response_hook_404_deactivates
    (ts : Nat) (t : Team) (u : String) (hurl : t.url = some u) :
    (response_hook ts 404 t).fst.inactive = true ∧
    (response_hook ts 404 t).fst.last_alerted = some ts ∧
    ∀ (l : List Team) (ts2 : Nat) (force : Bool),
      (response_hook ts 404 t).fst ∉ send_alerts l ts2 force := by
  have h : response_hook ts 404 t =
      ({ t with inactive := true, last_alerted := some ts },
       ["team_marked_inactive"]) := by
    simp [response_hook, hurl]
  refine ⟨by rw [h], by rw [h], ?_⟩
  intro l ts2 force hmem
  rw [h] at hmem
  have hact := (mem_send_alerts.mp hmem).2.1
  simp at hact

/-- Concrete instantiation of the C3 theorem. -/
theorem response_hook_404_deactivates_witness :
    (response_hook 5 404 teamActive).fst.inactive = true ∧
    (response_hook 5 404 teamActive).fst.last_alerted = some 5 ∧
    ∀ (l : List Team) (ts2 : Nat) (force : Bool),
      (response_hook 5 404 teamActive).fst ∉ send_alerts l ts2 force :=
  response_hook_404_deactivates 5 teamActive ("https://hooks/a") rfl

/-- Claim C4: idempotence of the fanout. A subscriber selected by a
`send_alerts` pass for timestamp `ts` whose POST response is HTTP 200 comes
out of the pass with `last_alerted = ts`, and a row with
`last_alerted = ts` is never posted to by a second non-forced `send_alerts`
pass with the same `ts`, whatever the table contents. -/
theorem send_alerts_idempotent
    (ts : Nat) (resp : Team → Nat) (t : Team) (u : String)
    (hact : t.inactive = false) (hla : t.last_alerted ≠ some ts)
    (hurl : t.url = some u) (h200 : resp t = 200) :
    deliverStep ts false resp t = { t with last_alerted := some ts } ∧
    ∀ l : List Team, { t with last_alerted := some ts } ∉ send_alerts l ts false := by
  have hstep : deliverStep ts false resp t = { t with last_alerted := some ts } := by
    simp [deliverStep, hact, bne_iff_ne, hla, response_hook, hurl, h200]
  refine ⟨hstep, ?_⟩
  intro l hmem
  have hsel := (mem_send_alerts.mp hmem).2.2
  simp at hsel

/-- Concrete instantiation of the C4 theorem. -/
theorem send_alerts_idempotent_witness :
    deliverStep 5 false (fun _ => 200) teamActive =
      { teamActive with last_alerted := some 5 } ∧
    ∀ l : List Team,
      { teamActive with last_alerted := some 5 } ∉ send_alerts l 5 false :=
  send_alerts_idempotent 5 (fun _ => 200) teamActive ("https://hooks/a")
    rfl (by decide) rfl rfl

/-- Claim C5 at the failing condition: `send_alert` takes no force flag and
performs its POST unconditionally — here it posts to a subscriber that is
both inactive and already alerted for the current timestamp, which the claim
says must be skipped when force is false. (The registration path calls
`send_alert(team, True)` with a second argument the method does not accept.) -/
theorem send_alert_ignores_skip_conditions :
    teamSkip.inactive = true ∧ teamSkip.last_alerted = some 7 ∧
    send_alert teamSkip = [some ("https://hooks/c")] := by
  decide

/-- Claim C6: a delivery response with an HTTP status outside 200 and 404
leaves the subscriber row completely unchanged (`inactive` still false,
`last_alerted` still lagging), so any later non-forced `send_alerts` pass
with the same timestamp selects the subscriber again. -/
theorem response_hook_transient_retry
    (ts code : Nat) (t : Team) (u : String)
    (hurl : t.url = some u) (h404 : code ≠ 404) (h200 : code ≠ 200)
    (hact : t.inactive = false) (hla : t.last_alerted ≠ some ts) :
    (response_hook ts code t).fst = t ∧
    ∀ l : List Team, t ∈ l → t ∈ send_alerts l ts false := by
  have h1 : (response_hook ts code t).fst = t := by
    simp [response_hook, hurl, beq_iff_eq, h404, bne_iff_ne, h200]
  refine ⟨h1, ?_⟩
  intro l hl
  exact mem_send_alerts.mpr ⟨hl, hact, Or.inr hla⟩

/-- Concrete instantiation of the C6 theorem with HTTP 500. -/
theorem response_hook_transient_retry_witness :
    (response_hook 5 500 teamActive).fst = teamActive ∧
    ∀ l : List Team, teamActive ∈ l → teamActive ∈ send_alerts l 5 false :=
  response_hook_transient_retry 5 500 teamActive ("https://hooks/a")
    rfl (by decide) (by decide) rfl (by decide)

end FrenchToast

namespace FrenchToast

/-- Claim C8 counterexample: re-registering an inactive subscriber (matching
`team_id`+`channel_id`) refreshes its url but leaves `inactive = true` — the
update path of `store_data` never touches the `inactive` flag, so no
reactivation happens. -/
theorem store_data_no_reactivation :
    teamReg.inactive = true ∧
    (store_data cipherDemo 0 [teamReg] regNew).snd.inactive = true ∧
    (store_data cipherDemo 0 [teamReg] regNew).snd.url = some ("https://hooks/new") := by
  decide

/-- Claim C8 (amended): when the `team_id`+`channel_id` pair matches an
existing Subscriber row, `store_data` upserts that row and refreshes its
delivery url (writing the plaintext `url` column); every other field — the
`inactive` flag included — is left unchanged, so a previously inactive row
stays inactive. -/
theorem store_data_refreshes_url_only
    (cipher : String → String) (nowAdded : Nat) (teams : List Team)
    (info : RegInfo) (t : Team)
    (hfind : findExisting teams info = some t) :
    (store_data cipher nowAdded teams info).snd = { t with url := some info.url } := by
  simp [store_data, hfind]

/-- Concrete instantiation of the C8 theorem. -/
theorem store_data_refreshes_url_only_witness :
    (store_data cipherDemo 0 [teamReg] regNew).snd =
      { teamReg with url := some (regNew.url) } :=
  store_data_refreshes_url_only cipherDemo 0 [teamReg] regNew teamReg (by decide)

/-- Claim C9 counterexample: on re-registration the plaintext delivery url is
persisted in the `url` column (`team.url = info['url']` in `store_data`),
and the encrypted column is not even refreshed — the invariant that the
delivery url is never stored in plaintext fails. -/
theorem store_data_stores_plaintext_url :
    (store_data cipherDemo 0 [teamReg] regNew).snd.url = some (regNew.url) ∧
    (store_data cipherDemo 0 [teamReg] regNew).snd.encrypted_url =
      teamReg.encrypted_url := by
  decide

/-- Claim C9 (amended): on initial registration no plaintext url is persisted
— the created row's `url` column is NULL and only `encrypted_url` carries
(the encryption of) the delivery url; on re-registration, however, the
plaintext url is written to the `url` column and `encrypted_url` is left
stale. -/
theorem store_data_url_encryption
    (cipher : String → String) (nowAdded : Nat) (teams : List Team)
    (info : RegInfo) :
    (findExisting teams info = none →
        (store_data cipher nowAdded teams info).snd.url = none ∧
        (store_data cipher nowAdded teams info).snd.encrypted_url =
          some (cipher info.url)) ∧
    (∀ t, findExisting teams info = some t →
        (store_data cipher nowAdded teams info).snd.url = some info.url ∧
        (store_data cipher nowAdded teams info).snd.encrypted_url =
          t.encrypted_url) := by
  constructor
  · intro h
    constructor <;> simp [store_data, h, newTeam, set_url]
  · intro t h
    constructor <;> simp [store_data, h]

/-- Concrete instantiation of the C9 theorem: a fresh registration and a
re-registration. -/
theorem store_data_url_encryption_witness :
    ((store_data cipherDemo 3 [] regNew).snd.url = none ∧
     (store_data cipherDemo 3 [] regNew).snd.encrypted_url =
       some (cipherDemo (regNew.url))) ∧
    ((store_data cipherDemo 0 [teamReg] regNew).snd.url = some (regNew.url) ∧
     (store_data cipherDemo 0 [teamReg] regNew).snd.encrypted_url =
       teamReg.encrypted_url) :=
  ⟨(store_data_url_encryption cipherDemo 3 [] regNew).1 rfl,
   (store_data_url_encryption cipherDemo 0 [teamReg] regNew).2 teamReg (by decide)⟩

/-- Claim C10: `Teams.set_url` (also run by `Teams.__init__` for every newly
registered subscriber) writes only the `encrypted_url` field and leaves every
other field unchanged; in particular the plaintext `url` column — the POST
target used by `send_alert` and `send_alerts` — is never assigned on creation
and is NULL on a freshly created row, so the fresh row's POST target is
`none`. -/
theorem set_url_writes_only_encrypted_url
    (cipher : String → String) (t : Team) (u : String)
    (nowAdded : Nat) (tid cid : String) :
    (set_url cipher t u).encrypted_url = some (cipher u) ∧
    (set_url cipher t u).team_id = t.team_id ∧
    (set_url cipher t u).channel_id = t.channel_id ∧
    (set_url cipher t u).url = t.url ∧
    (set_url cipher t u).added = t.added ∧
    (set_url cipher t u).last_alerted = t.last_alerted ∧
    (set_url cipher t u).inactive = t.inactive ∧
    (newTeam cipher nowAdded tid cid u).url = none ∧
    send_alert (newTeam cipher nowAdded tid cid u) = [none] := by
  simp [set_url, newTeam, send_alert]

end FrenchToast
